import Mathlib

/-!
Shallow embedding of the EPL-Tracker analytics engine
(src/services/teams.service.ts) and of the refresh-token rotation protocol
(src auth service). JavaScript numbers are modelled as rationals; the JS
idiom Number(x.toFixed(2)) is modelled by rounding to the nearest
hundredth with ties toward positive infinity, which is the ECMAScript
toFixed rule on exact decimal values. Database query results are passed
in as explicit lists (the repository is an external collaborator); the
SQL LIMIT clause is modelled with List.take, and row order is the order
returned by the query (newest first for ended-match queries). Postgres
numeric columns arrive in the service as strings and go through the
total parse numOrNull; rows are modelled post-parse, with a score column
as Option of a rational (none for SQL NULL or an unparsable string), so
the numOrNull call is the identity on this representation and the JS
coalescing operator on its result is Option.getD.
-/

namespace EPLTracker

/-- JS `Number(x.toFixed(2))` on rationals: round to the nearest hundredth,
ties toward positive infinity. -/
def round2 (x : ℚ) : ℚ := (Rat.floor (x * 100 + 1/2) : ℚ) / 100

/-- Function `safeDivide` from teams.service.ts: division that returns 0 on a zero
denominator instead of NaN. -/
def safeDivide (a b : ℚ) : ℚ := if b = 0 then 0 else a / b

/-- A row of the ended-match queries in teams.service.ts, after the
repository boundary parse: `winner` is the nullable integer winner code
(1 home win, 2 away win, 0 draw), scores are nullable parsed numerics. -/
structure MatchRow where
  winner : Option Int
  home_team_external_id : Int
  away_team_external_id : Int
  home_score : Option ℚ
  away_score : Option ℚ
  start_time : String
deriving Repr, DecidableEq

/-- The perspective result type of `getTeamResultForMatch`. -/
inductive WDL
  | W
  | D
  | L
deriving Repr, DecidableEq

/-- Function `getTeamResultForMatch` from teams.service.ts: result of a match from
the perspective of `teamExternalId`; null when the winner code is null or
unrecognised. -/
def getTeamResultForMatch (m : MatchRow) (teamExternalId : Int) : Option WDL :=
  match m.winner with
  | none => none
  | some w =>
    if w = 0 then some .D
    else
      let teamIsHome := m.home_team_external_id = teamExternalId
      if w = 1 then some (if teamIsHome then .W else .L)
      else if w = 2 then some (if teamIsHome then .L else .W)
      else none

/-- Function `pointsFromWinnerPerspective` from teams.service.ts: points earned by
`teamExternalId` in a match with the given winner code, or null when the
winner is null or unrecognised. -/
def pointsFromWinnerPerspective (winner : Option Int)
    (homeExternalId awayExternalId teamExternalId : Int) : Option ℚ :=
  match winner with
  | none => none
  | some w =>
    if w = 0 then some 1
    else
      let teamIsHome := homeExternalId = teamExternalId
      if w = 1 then some (if teamIsHome then 3 else 0)
      else if w = 2 then some (if teamIsHome then 0 else 3)
      else none

/-- Function `labelDifficulty` from teams.service.ts. -/
def labelDifficulty (score : ℚ) : String :=
  if score < 6/5 then "Easy"
  else if score < 31/20 then "Medium"
  else "Hard"

/-- Function `clamp` from teams.service.ts. -/
def clamp (n lo hi : ℚ) : ℚ := min (max n lo) hi

/-- Return shape of `getTeamPpgFromLastEndedMatches`. The source calls the
second field `matches`; that word is a reserved token in Lean, so the
field is named `matchesUsed` here. -/
structure PpgResult where
  ppg : ℚ
  matchesUsed : Nat
deriving Repr, DecidableEq

/-- Core of `getTeamPpgFromLastEndedMatches` from teams.service.ts, given
the rows fetched for the team (its last ended matches, newest first,
already limited). Rows whose winner gives no perspective points are
skipped from both the points total and the counted-match total; the
returned ppg is the safe quotient rounded to 2 decimals. -/
def getTeamPpgFromLastEndedMatches (teamExternalId : Int)
    (rows : List MatchRow) : PpgResult :=
  if rows.length = 0 then { ppg := 0, matchesUsed := 0 }
  else
    let pc := rows.foldl
      (fun (acc : ℚ × Nat) m =>
        match pointsFromWinnerPerspective m.winner m.home_team_external_id
            m.away_team_external_id teamExternalId with
        | none => acc
        | some p => (acc.1 + p, acc.2 + 1))
      (0, 0)
    { ppg := round2 (safeDivide pc.1 (pc.2 : ℚ)), matchesUsed := pc.2 }

/-- The unrounded points-per-game quotient over the same rows: the
points total over counted matches with no rounding applied. Used to
state where rounding happens relative to the blend. -/
def ppgUnrounded (teamExternalId : Int) (rows : List MatchRow) : ℚ :=
  let pc := rows.foldl
    (fun (acc : ℚ × Nat) m =>
      match pointsFromWinnerPerspective m.winner m.home_team_external_id
          m.away_team_external_id teamExternalId with
      | none => acc
      | some p => (acc.1 + p, acc.2 + 1))
    (0, 0)
  safeDivide pc.1 (pc.2 : ℚ)

/-- Opponent metrics and difficulty of one upcoming fixture, as computed
inside the fixture loop of `getTeamFixtureDifficulty`. -/
structure FixtureMetrics where
  baselinePPG : ℚ
  baselineMatches : Nat
  recentPPG : ℚ
  recentMatches : Nat
  deltaPPG : ℚ
  oppStrength : ℚ
  oppStrengthRaw : ℚ
  fixtureDifficulty : ℚ
  fixtureLabel : String
deriving Repr, DecidableEq

/-- Per-fixture computation of `getTeamFixtureDifficulty` (teams.service.ts,
step 3), given the full newest-first ended-match list of the opponent;
`oppMatches` and `recentOppMatches` are the clamped query limits (SQL
LIMIT modelled by List.take), `alpha` the clamped momentum weight, and
`homeFactor` / `awayFactor` the resolved venue factors (both 1 when the
home/away adjustment is disabled). -/
def fixtureDifficultyForOpponent (opponentExternalId : Int)
    (oppRows : List MatchRow) (oppMatches recentOppMatches : Nat)
    (alpha : ℚ) (teamIsHome : Bool) (homeFactor awayFactor : ℚ) :
    FixtureMetrics :=
  let baseline := getTeamPpgFromLastEndedMatches opponentExternalId
    (oppRows.take oppMatches)
  let recent := getTeamPpgFromLastEndedMatches opponentExternalId
    (oppRows.take recentOppMatches)
  let deltaPPG := recent.ppg - baseline.ppg
  let oppStrengthRaw := baseline.ppg + alpha * deltaPPG
  let venueFactor := if teamIsHome then homeFactor else awayFactor
  let fixtureDifficulty := round2 (oppStrengthRaw * venueFactor)
  { baselinePPG := baseline.ppg
    baselineMatches := baseline.matchesUsed
    recentPPG := recent.ppg
    recentMatches := recent.matchesUsed
    deltaPPG := round2 deltaPPG
    oppStrength := round2 oppStrengthRaw
    oppStrengthRaw := oppStrengthRaw
    fixtureDifficulty := fixtureDifficulty
    fixtureLabel := labelDifficulty fixtureDifficulty }

/-- Function `ppgRating` from teams.service.ts: fixed thresholds on the recent
versus baseline ppg delta. -/
def ppgRating (delta : ℚ) : String :=
  if delta ≥ 2/5 then "Strong form"
  else if delta ≥ 3/20 then "Good form"
  else if delta > -(3/20) then "Average form"
  else if delta > -(2/5) then "Poor form"
  else "Bad form"

/-- The population variance of a list of rationals; `stddev` in
teams.service.ts is the square root of this. The square root of a
rational is irrational in general, so the embedding carries the variance
and compares it against squared thresholds, which is equivalent since
the square root is monotone and the thresholds are nonnegative. -/
def listVariance (nums : List ℚ) : ℚ :=
  if nums.length = 0 then 0
  else
    let mean := nums.foldl (· + ·) 0 / (nums.length : ℚ)
    (nums.foldl (fun acc v => acc + (v - mean) ^ 2) 0) / (nums.length : ℚ)

/-- Function `volatilityLabel` from teams.service.ts, applied to the square root of
the variance: sd < 0.6 iff variance < 0.36 and sd < 1.1 iff
variance < 1.21, both sides nonnegative. -/
def volatilityLabelOfVariance (v : ℚ) : String :=
  if v < 9/25 then "Stable"
  else if v < 121/100 then "Moderate volatility"
  else "High volatility"

/-- The confirmation-signal conditional from `getTeamForm`
(teams.service.ts, comparing the ppg delta with the goal-difference
per-match delta). -/
def confirmationOf (deltaPPG deltaGDPM : ℚ) : String :=
  if deltaPPG > 0 ∧ deltaGDPM < 0 then "Results > performance"
  else if deltaPPG > 0 ∧ deltaGDPM ≥ 0 then "Performance-backed"
  else if deltaPPG < 0 ∧ deltaGDPM < 0 then "Consistently struggling"
  else "Mixed"

/-- The per-match record built inside the `getTeamForm` loop. -/
structure PerMatch where
  points : ℚ
  gf : ℚ
  ga : ℚ
  gd : ℚ
  result : WDL
deriving Repr, DecidableEq

/-- One iteration of the `getTeamForm` row loop: null scores are coerced
to 0, and a row whose result is indeterminable is skipped (the
`continue` statement of the loop), which this encoding signals with
`none`. -/
def toPerMatch (teamExternalId : Int) (m : MatchRow) : Option PerMatch :=
  let teamIsHome := m.home_team_external_id = teamExternalId
  let homeScore := m.home_score.getD 0
  let awayScore := m.away_score.getD 0
  let gf := if teamIsHome then homeScore else awayScore
  let ga := if teamIsHome then awayScore else homeScore
  let gd := gf - ga
  match getTeamResultForMatch m teamExternalId with
  | none => none
  | some r =>
    let points : ℚ := match r with
      | .W => 3
      | .D => 1
      | .L => 0
    some { points := points, gf := gf, ga := ga, gd := gd, result := r }

/-- The `formRating` object of the `getTeamForm` response. The source
field `recentPointsStd` holds the rounded square root of the recent
points variance; the embedding stores the exact variance instead (see
`listVariance`). -/
structure FormRating where
  recentMatches : Nat
  baselineMatches : Nat
  recentPPG : ℚ
  baselinePPG : ℚ
  deltaPPG : ℚ
  rating : String
  recentPointsVariance : ℚ
  volatilityLabel : String
  confirmation : String
  deltaGDPerMatch : ℚ
deriving Repr, DecidableEq

/-- The `getTeamForm` response shape. The source field `matches` is a
reserved token in Lean and is named `matchesUsed` here; `teamId` and the
team lookup are omitted (the team row is an external collaborator). -/
structure FormSnapshot where
  matchesUsed : Nat
  form : List WDL
  points : ℚ
  ppg : ℚ
  gf : ℚ
  ga : ℚ
  gd : ℚ
  cleanSheets : Nat
  avgGoalsFor : ℚ
  avgGoalsAgainst : ℚ
  formRating : Option FormRating
deriving Repr, DecidableEq

/-- The empty snapshot returned by `getTeamForm` when there are no rows or
no computable per-match results, parameterised by the reported match
count (0 in the first case, the fetched row count in the second). -/
def emptyFormSnapshot (matchCount : Nat) : FormSnapshot :=
  { matchesUsed := matchCount
    form := []
    points := 0
    ppg := 0
    gf := 0
    ga := 0
    gd := 0
    cleanSheets := 0
    avgGoalsFor := 0
    avgGoalsAgainst := 0
    formRating := none }

/-- Core of `getTeamForm` from teams.service.ts, given the fetched rows
(the last N ended matches of the team, newest first). -/
def getTeamFormCore (teamExternalId : Int) (rows : List MatchRow) :
    FormSnapshot :=
  if rows.length = 0 then emptyFormSnapshot 0
  else
    let perMatch := rows.filterMap (toPerMatch teamExternalId)
    if perMatch.length = 0 then emptyFormSnapshot rows.length
    else
      let points := perMatch.foldl (fun a x => a + x.points) 0
      let gf := perMatch.foldl (fun a x => a + x.gf) 0
      let ga := perMatch.foldl (fun a x => a + x.ga) 0
      let gd := gf - ga
      let n := perMatch.length
      let ppg := points / (n : ℚ)
      let cleanSheets := (perMatch.filter (fun x => x.ga = 0)).length
      let form := perMatch.map (fun x => x.result)
      let recentN := min 5 n
      let baselineN := min 10 (n - recentN)
      let recent := perMatch.take recentN
      let baseline := (perMatch.drop recentN).take baselineN
      let recentPoints := recent.foldl (fun a x => a + x.points) 0
      let recentPPG := if recentN = 0 then 0 else recentPoints / (recentN : ℚ)
      let recentGDPM := if recentN = 0 then 0
        else (recent.foldl (fun a x => a + x.gd) 0) / (recentN : ℚ)
      let baselinePPG := if baseline.length > 0
        then (baseline.foldl (fun a x => a + x.points) 0) / (baseline.length : ℚ)
        else ppg
      let baselineGDPM := if baseline.length > 0
        then (baseline.foldl (fun a x => a + x.gd) 0) / (baseline.length : ℚ)
        else gd / (n : ℚ)
      let deltaPPG := recentPPG - baselinePPG
      let recentVar := listVariance (recent.map (fun x => x.points))
      let deltaGDPM := recentGDPM - baselineGDPM
      { matchesUsed := n
        form := form
        points := points
        ppg := round2 ppg
        gf := gf
        ga := ga
        gd := gd
        cleanSheets := cleanSheets
        avgGoalsFor := round2 (gf / (n : ℚ))
        avgGoalsAgainst := round2 (ga / (n : ℚ))
        formRating := some
          { recentMatches := recentN
            baselineMatches := if baseline.length = 0 then n else baseline.length
            recentPPG := round2 recentPPG
            baselinePPG := round2 baselinePPG
            deltaPPG := round2 deltaPPG
            rating := ppgRating deltaPPG
            recentPointsVariance := recentVar
            volatilityLabel := volatilityLabelOfVariance recentVar
            confirmation := confirmationOf deltaPPG deltaGDPM
            deltaGDPerMatch := round2 deltaGDPM } }

/-- The per-match stat record built inside `getTeamTrends`. -/
structure MatchStat where
  date : String
  points : ℚ
  gf : ℚ
  ga : ℚ
  gd : ℚ
deriving Repr, DecidableEq

/-- The stat mapping of `getTeamTrends`: unlike the `getTeamForm` loop it
never skips a row; an indeterminable result yields 0 points and null
scores are coerced to 0. -/
def toMatchStat (teamExternalId : Int) (m : MatchRow) : MatchStat :=
  let teamIsHome := m.home_team_external_id = teamExternalId
  let homeScore := m.home_score.getD 0
  let awayScore := m.away_score.getD 0
  let gf := if teamIsHome then homeScore else awayScore
  let ga := if teamIsHome then awayScore else homeScore
  let gd := gf - ga
  let r := getTeamResultForMatch m teamExternalId
  let points : ℚ := if r = some .W then 3 else if r = some .D then 1 else 0
  { date := m.start_time, points := points, gf := gf, ga := ga, gd := gd }

/-- The `roll` helper of `getTeamTrends`: window sums for each starting
index from 0 to length minus window (the JS loop body never runs when the
window exceeds the list length, which natural subtraction reproduces). -/
def roll (arr : List MatchStat) (window : Nat) (pick : MatchStat → ℚ) :
    List ℚ :=
  (List.range (arr.length + 1 - window)).map
    (fun i => (((arr.drop i).take window).map pick).foldl (· + ·) 0)

/-- The `getTeamTrends` response shape. The source field `matches` is a
reserved token in Lean and is named `matchesUsed` here. In the source the
early empty return carries series keys `pointsSeries`, `gdSeries`,
`gfSeries`, `gaSeries` instead of the per-match names; both shapes are
modelled by this one record since every series is empty there. -/
structure TrendResult where
  matchesUsed : Nat
  window : Nat
  labels : List String
  ppgSeries : List ℚ
  gdPerMatchSeries : List ℚ
  gfPerMatchSeries : List ℚ
  gaPerMatchSeries : List ℚ
deriving Repr, DecidableEq

/-- Core of `getTeamTrends` from teams.service.ts, given the fetched rows
(the last N ended matches, newest first) and the rolling window size. -/
def getTeamTrendsCore (teamExternalId : Int) (rows : List MatchRow)
    (window : Nat) : TrendResult :=
  if rows.length < window then
    { matchesUsed := rows.length
      window := window
      labels := []
      ppgSeries := []
      gdPerMatchSeries := []
      gfPerMatchSeries := []
      gaPerMatchSeries := [] }
  else
    let chronological := rows.reverse
    let stats := chronological.map (toMatchStat teamExternalId)
    let w := window
    let rollingPoints := roll stats w (fun x => x.points)
    let rollingGf := roll stats w (fun x => x.gf)
    let rollingGa := roll stats w (fun x => x.ga)
    let rollingGd := roll stats w (fun x => x.gd)
    let rollingPpg := rollingPoints.map (fun x => round2 (x / (w : ℚ)))
    let gdPerMatch := rollingGd.map (fun x => round2 (x / (w : ℚ)))
    let gfPerMatch := rollingGf.map (fun x => round2 (x / (w : ℚ)))
    let gaPerMatch := rollingGa.map (fun x => round2 (x / (w : ℚ)))
    let labels := (stats.drop (w - 1)).map (fun x => x.date)
    { matchesUsed := stats.length
      window := w
      labels := labels
      ppgSeries := rollingPpg
      gdPerMatchSeries := gdPerMatch
      gfPerMatchSeries := gfPerMatch
      gaPerMatchSeries := gaPerMatch }

/-- A row of the `refresh_tokens` table as the auth service reads it:
the stored token hash, the owning user, the expiry instant and the
nullable revocation instant. Timestamps are modelled as integers. -/
structure RefreshSession where
  user_id : Nat
  token_hash : String
  expires_at : Int
  revoked_at : Option Int
deriving Repr, DecidableEq

/-- The `refresh_tokens` table. -/
abbrev TokenStore := List RefreshSession

/-- The row predicate of the auth-service token queries:
`token_hash = $1 AND revoked_at IS NULL AND expires_at > now()`. -/
def isActiveRow (now : Int) (hash : String) (s : RefreshSession) : Bool :=
  decide (s.token_hash = hash) && decide (s.revoked_at = none)
    && decide (now < s.expires_at)

/-- The revoking UPDATE of the auth service:
`SET revoked_at = now() WHERE token_hash = $1 AND revoked_at IS NULL`. -/
def revokeByHash (hash : String) (now : Int) (db : TokenStore) : TokenStore :=
  db.map (fun s =>
    if s.token_hash = hash ∧ s.revoked_at = none
    then { s with revoked_at := some now }
    else s)

/-- Function `revokeRefreshToken` from the auth service, parameterised by the hash
function (the crypto sha256 is an external collaborator). -/
def revokeRefreshToken (hash : String → String) (rawRefreshToken : String)
    (now : Int) (db : TokenStore) : TokenStore :=
  revokeByHash (hash rawRefreshToken) now db

/-- Errors a rotation can produce: the REFRESH_INVALID rejection thrown by
`rotateRefreshToken`, or a propagated database error. -/
inductive RotateError
  | refreshInvalid
  | dbError
deriving Repr, DecidableEq

/-- Function `rotateRefreshToken` from the auth service with every database step
succeeding: look up an active row for the old hash under a row lock,
revoke every active row with that hash, insert the fresh session, commit.
The hash function and the freshly generated random token are passed in
(crypto is an external collaborator); the result pairs the outcome with
the table state after the call. -/
def rotateRefreshToken (hash : String → String)
    (rawRefreshToken newRefreshToken : String) (now newExpiresAt : Int)
    (db : TokenStore) : Except RotateError (Nat × String) × TokenStore :=
  let oldHash := hash rawRefreshToken
  let newHash := hash newRefreshToken
  match db.find? (isActiveRow now oldHash) with
  | none => (.error .refreshInvalid, db)
  | some row =>
    let revoked := revokeByHash oldHash now db
    let inserted := revoked ++
      [{ user_id := row.user_id, token_hash := newHash,
         expires_at := newExpiresAt, revoked_at := none }]
    (.ok (row.user_id, newRefreshToken), inserted)

/-- The database steps `rotateRefreshToken` runs inside its transaction. -/
inductive RotStep
  | selectStep
  | updateStep
  | insertStep
  | commitStep
deriving Repr, DecidableEq

/-- Function `rotateRefreshToken` instrumented with database-error injection:
`fails s = true` means the query at step `s` raises. The source wraps the
steps in BEGIN plus a catch block that issues ROLLBACK and rethrows, so a
raising step leaves the committed table untouched and surfaces the error;
uncommitted writes are never observable, which the model reflects by
returning the original table on every raising path. -/
def rotateRefreshTokenTx (hash : String → String) (fails : RotStep → Bool)
    (rawRefreshToken newRefreshToken : String) (now newExpiresAt : Int)
    (db : TokenStore) : Except RotateError (Nat × String) × TokenStore :=
  let oldHash := hash rawRefreshToken
  let newHash := hash newRefreshToken
  if fails .selectStep then (.error .dbError, db)
  else
    match db.find? (isActiveRow now oldHash) with
    | none => (.error .refreshInvalid, db)
    | some row =>
      if fails .updateStep then (.error .dbError, db)
      else if fails .insertStep then (.error .dbError, db)
      else if fails .commitStep then (.error .dbError, db)
      else
        (.ok (row.user_id, newRefreshToken),
          revokeByHash oldHash now db ++
            [{ user_id := row.user_id, token_hash := newHash,
               expires_at := newExpiresAt, revoked_at := none }])

/-- The fixture difficulty score as the specification describes it for the
refinement check of rounding placement: the opponent-strength blend
computed from UNROUNDED ppg values, with full-precision internal
arithmetic and rounding to 2 decimals only at the output boundary. -/
def fixtureDifficultyFullPrecisionSpec (opponentExternalId : Int)
    (oppRows : List MatchRow) (oppMatches recentOppMatches : Nat)
    (alpha : ℚ) (teamIsHome : Bool) (homeFactor awayFactor : ℚ) : ℚ :=
  let baseline := ppgUnrounded opponentExternalId (oppRows.take oppMatches)
  let recent := ppgUnrounded opponentExternalId (oppRows.take recentOppMatches)
  let oppStrength := baseline + alpha * (recent - baseline)
  let venueFactor := if teamIsHome then homeFactor else awayFactor
  round2 (oppStrength * venueFactor)

/-- Concrete opponent history for the rounding-placement check: the three
newest ended matches have a null winner, the three older ones are a home
win, a home win and a draw from the perspective of team 100, giving an
unrounded baseline ppg of 7/3 over 6 fetched rows and a recent ppg of 0
over 3 fetched rows. -/
def oppRowsC3 : List MatchRow :=
  [ { winner := none, home_team_external_id := 100,
      away_team_external_id := 200, home_score := none, away_score := none,
      start_time := "2025-05-10" }
  , { winner := none, home_team_external_id := 200,
      away_team_external_id := 100, home_score := none, away_score := none,
      start_time := "2025-05-03" }
  , { winner := none, home_team_external_id := 100,
      away_team_external_id := 200, home_score := none, away_score := none,
      start_time := "2025-04-26" }
  , { winner := some 1, home_team_external_id := 100,
      away_team_external_id := 200, home_score := some 2, away_score := some 0,
      start_time := "2025-04-19" }
  , { winner := some 1, home_team_external_id := 100,
      away_team_external_id := 200, home_score := some 3, away_score := some 1,
      start_time := "2025-04-12" }
  , { winner := some 0, home_team_external_id := 200,
      away_team_external_id := 100, home_score := some 1, away_score := some 1,
      start_time := "2025-04-05" } ]

/-- Concrete history for Scenario A: exactly three ended matches of team
10, newest first, with perspective results W, W, L. -/
def rowsScenarioA : List MatchRow :=
  [ { winner := some 1, home_team_external_id := 10,
      away_team_external_id := 20, home_score := some 2, away_score := some 0,
      start_time := "2025-03-01" }
  , { winner := some 2, home_team_external_id := 20,
      away_team_external_id := 10, home_score := some 1, away_score := some 3,
      start_time := "2025-02-22" }
  , { winner := some 2, home_team_external_id := 10,
      away_team_external_id := 20, home_score := some 0, away_score := some 1,
      start_time := "2025-02-15" } ]

/-- Concrete trend history: six ended matches of team 10, newest first,
the fourth one with a null winner and null scores. -/
def rowsTrend : List MatchRow :=
  [ { winner := some 1, home_team_external_id := 10,
      away_team_external_id := 20, home_score := some 2, away_score := some 0,
      start_time := "2025-03-29" }
  , { winner := some 0, home_team_external_id := 30,
      away_team_external_id := 10, home_score := some 1, away_score := some 1,
      start_time := "2025-03-22" }
  , { winner := some 2, home_team_external_id := 10,
      away_team_external_id := 30, home_score := some 0, away_score := some 2,
      start_time := "2025-03-15" }
  , { winner := none, home_team_external_id := 20,
      away_team_external_id := 10, home_score := none, away_score := none,
      start_time := "2025-03-08" }
  , { winner := some 1, home_team_external_id := 10,
      away_team_external_id := 30, home_score := some 4, away_score := some 1,
      start_time := "2025-03-01" }
  , { winner := some 2, home_team_external_id := 20,
      away_team_external_id := 10, home_score := some 0, away_score := some 1,
      start_time := "2025-02-22" } ]

/-- Concrete form history in which every fetched ended match has a null
winner. -/
def rowsAllNull : List MatchRow :=
  [ { winner := none, home_team_external_id := 10,
      away_team_external_id := 20, home_score := none, away_score := none,
      start_time := "2025-03-01" }
  , { winner := none, home_team_external_id := 30,
      away_team_external_id := 10, home_score := some 1, away_score := some 1,
      start_time := "2025-02-22" } ]

/- ------------------------------------------------------------------ -/
/- Helper lemmas                                                       -/
/- ------------------------------------------------------------------ -/

theorem round2_zero : round2 0 = 0 := by
  norm_num [round2, Rat.floor_def']

theorem mem_revokeByHash_not_active (hsh : String) (now t : Int)
    (db : TokenStore) :
    ∀ s ∈ revokeByHash hsh now db, isActiveRow t hsh s = false := by
  intro s hs
  rcases List.mem_map.mp hs with ⟨y, _, rfl⟩
  by_cases h1 : y.token_hash = hsh
  · by_cases h2 : y.revoked_at = none
    · rw [if_pos ⟨h1, h2⟩]
      simp [isActiveRow]
    · rw [if_neg (fun hc => h2 hc.2)]
      simp [isActiveRow, h2]
  · rw [if_neg (fun hc => h1 hc.1)]
    simp [isActiveRow, h1]

/- ------------------------------------------------------------------ -/
/- Claim theorems                                                      -/
/- ------------------------------------------------------------------ -/

/-- C1: refresh tokens are single-use under rotation. If a rotate call on
a raw token succeeds, any later rotate call on the same raw token against
the resulting store fails with REFRESH_INVALID and leaves the store
unchanged; and a rotate on a token that was revoked also fails with
REFRESH_INVALID. The hash of the freshly generated token is assumed
distinct from the hash of the rotated one (sha256 collision freedom). -/
theorem rotate_refresh_token_single_use (hash : String → String)
    (raw newRaw : String) (now newExp : Int) (db : TokenStore)
    (p : Nat × String)
    (hok : (rotateRefreshToken hash raw newRaw now newExp db).1 = .ok p)
    (hne : hash newRaw ≠ hash raw) :
    (∀ newRaw' now' newExp',
       rotateRefreshToken hash raw newRaw' now' newExp'
           (rotateRefreshToken hash raw newRaw now newExp db).2
         = (.error .refreshInvalid,
            (rotateRefreshToken hash raw newRaw now newExp db).2)) ∧
    (∀ raw₂ newRaw₂ t₀ t₂ e₂ (db₂ : TokenStore),
       rotateRefreshToken hash raw₂ newRaw₂ t₂ e₂
           (revokeRefreshToken hash raw₂ t₀ db₂)
         = (.error .refreshInvalid, revokeRefreshToken hash raw₂ t₀ db₂)) := by
  constructor
  · intro newRaw' now' newExp'
    cases hfind : db.find? (isActiveRow now (hash raw)) with
    | none =>
      simp only [rotateRefreshToken, hfind] at hok
      exact absurd hok (by simp)
    | some row =>
      have hsnd : (rotateRefreshToken hash raw newRaw now newExp db).2
          = revokeByHash (hash raw) now db ++
            [({ user_id := row.user_id, token_hash := hash newRaw,
                expires_at := newExp, revoked_at := none } : RefreshSession)] := by
        simp only [rotateRefreshToken, hfind]
      rw [hsnd]
      have hnone :
          (revokeByHash (hash raw) now db ++
            [({ user_id := row.user_id, token_hash := hash newRaw,
                expires_at := newExp, revoked_at := none } : RefreshSession)]).find?
              (isActiveRow now' (hash raw)) = none := by
        apply List.find?_eq_none.mpr
        intro x hx
        rcases List.mem_append.mp hx with hx1 | hx2
        · simp [mem_revokeByHash_not_active (hash raw) now now' db x hx1]
        · rw [List.mem_singleton] at hx2
          subst hx2
          simp [isActiveRow, hne]
      simp only [rotateRefreshToken, hnone]
  · intro raw₂ newRaw₂ t₀ t₂ e₂ db₂
    have hnone : (revokeRefreshToken hash raw₂ t₀ db₂).find?
        (isActiveRow t₂ (hash raw₂)) = none := by
      apply List.find?_eq_none.mpr
      intro x hx
      simp [mem_revokeByHash_not_active (hash raw₂) t₀ t₂ db₂ x hx]
    simp only [rotateRefreshToken, hnone]

/-- Witness for C1 at a one-session store: rotating "tokA" succeeds, and
rotating it again against the rotated store is rejected with
REFRESH_INVALID and changes nothing. -/
theorem rotate_refresh_token_single_use_witness :
    rotateRefreshToken (fun s => s) "tokA" "tokC" 60 300
        (rotateRefreshToken (fun s => s) "tokA" "tokB" 50 200
          [{ user_id := 7, token_hash := "tokA", expires_at := 100,
             revoked_at := none }]).2
      = (.error .refreshInvalid,
         (rotateRefreshToken (fun s => s) "tokA" "tokB" 50 200
           [{ user_id := 7, token_hash := "tokA", expires_at := 100,
              revoked_at := none }]).2) :=
  (rotate_refresh_token_single_use (fun s => s) "tokA" "tokB" 50 200
      [{ user_id := 7, token_hash := "tokA", expires_at := 100,
         revoked_at := none }]
      (7, "tokB") (by rfl) (by decide)).1 "tokC" 60 300

/-- C2: rotation is atomic with respect to failure. Whenever the
instrumented rotation ends in an error, the table equals the initial
table, so no revoke-without-insert state is observable; whenever a step
is marked as raising, the call ends in an error with the table unchanged;
and a successful call applies the revocation and the insertion together. -/
theorem rotate_refresh_token_tx_atomic (hash : String → String)
    (fails : RotStep → Bool) (raw newRaw : String) (now newExp : Int)
    (db : TokenStore) :
    (∀ e, (rotateRefreshTokenTx hash fails raw newRaw now newExp db).1
        = .error e →
      (rotateRefreshTokenTx hash fails raw newRaw now newExp db).2 = db) ∧
    (∀ s, fails s = true →
      ∃ e, (rotateRefreshTokenTx hash fails raw newRaw now newExp db).1
          = .error e ∧
        (rotateRefreshTokenTx hash fails raw newRaw now newExp db).2 = db) ∧
    (∀ p, (rotateRefreshTokenTx hash fails raw newRaw now newExp db).1
        = .ok p →
      ∃ row, db.find? (isActiveRow now (hash raw)) = some row ∧
        (rotateRefreshTokenTx hash fails raw newRaw now newExp db).2
          = revokeByHash (hash raw) now db ++
            [{ user_id := row.user_id, token_hash := hash newRaw,
               expires_at := newExp, revoked_at := none }]) := by
  have hmain :
      (∃ e, rotateRefreshTokenTx hash fails raw newRaw now newExp db
          = (.error e, db)) ∨
      ((fails .selectStep = false ∧ fails .updateStep = false ∧
        fails .insertStep = false ∧ fails .commitStep = false) ∧
       ∃ row, db.find? (isActiveRow now (hash raw)) = some row ∧
         rotateRefreshTokenTx hash fails raw newRaw now newExp db
           = (.ok (row.user_id, newRaw),
              revokeByHash (hash raw) now db ++
                [{ user_id := row.user_id, token_hash := hash newRaw,
                   expires_at := newExp, revoked_at := none }])) := by
    by_cases f1 : fails .selectStep
    · exact .inl ⟨.dbError, by simp [rotateRefreshTokenTx, f1]⟩
    · cases hfind : db.find? (isActiveRow now (hash raw)) with
      | none =>
        exact .inl ⟨.refreshInvalid, by simp [rotateRefreshTokenTx, f1, hfind]⟩
      | some row =>
        by_cases f2 : fails .updateStep
        · exact .inl ⟨.dbError, by simp [rotateRefreshTokenTx, f1, hfind, f2]⟩
        · by_cases f3 : fails .insertStep
          · exact .inl ⟨.dbError,
              by simp [rotateRefreshTokenTx, f1, hfind, f2, f3]⟩
          · by_cases f4 : fails .commitStep
            · exact .inl ⟨.dbError,
                by simp [rotateRefreshTokenTx, f1, hfind, f2, f3, f4]⟩
            · refine .inr ⟨⟨by simpa using f1, by simpa using f2,
                by simpa using f3, by simpa using f4⟩, row, rfl, ?_⟩
              simp [rotateRefreshTokenTx, f1, hfind, f2, f3, f4]
  refine ⟨?_, ?_, ?_⟩
  · intro e he
    rcases hmain with ⟨e', he'⟩ | ⟨_, row, _, hr⟩
    · rw [he']
    · rw [hr] at he
      exact absurd he (by simp)
  · intro s hs
    rcases hmain with ⟨e', he'⟩ | ⟨⟨g1, g2, g3, g4⟩, _⟩
    · exact ⟨e', by rw [he'], by rw [he']⟩
    · cases s with
      | selectStep => rw [g1] at hs; exact absurd hs (by simp)
      | updateStep => rw [g2] at hs; exact absurd hs (by simp)
      | insertStep => rw [g3] at hs; exact absurd hs (by simp)
      | commitStep => rw [g4] at hs; exact absurd hs (by simp)
  · intro p hp
    rcases hmain with ⟨e', he'⟩ | ⟨_, row, hfind, hr⟩
    · rw [he'] at hp
      exact absurd hp (by simp)
    · exact ⟨row, hfind, by rw [hr]⟩

/-- Witness for C2: with the INSERT step raising on a one-session store,
the rotation fails and the store is exactly the initial one. -/
theorem rotate_refresh_token_tx_atomic_witness :
    (rotateRefreshTokenTx (fun s => s)
        (fun s => decide (s = RotStep.insertStep)) "A" "B" 0 10
        [{ user_id := 1, token_hash := "A", expires_at := 5,
           revoked_at := none }]).2
      = [{ user_id := 1, token_hash := "A", expires_at := 5,
           revoked_at := none }] :=
  (rotate_refresh_token_tx_atomic (fun s => s)
      (fun s => decide (s = RotStep.insertStep)) "A" "B" 0 10
      [{ user_id := 1, token_hash := "A", expires_at := 5,
         revoked_at := none }]).1 .dbError (by rfl)

/-- C7: for an ended match with a determined winner code between two
distinct teams, the perspective points of the two sides are defined and
sum to 2 on a draw and to 3 on a decisive result. -/
theorem points_from_winner_perspective_symmetry (w home away : Int)
    (hw : w = 0 ∨ w = 1 ∨ w = 2) (hne : home ≠ away) :
    ∃ pH pA : ℚ,
      pointsFromWinnerPerspective (some w) home away home = some pH ∧
      pointsFromWinnerPerspective (some w) home away away = some pA ∧
      (w = 0 → pH + pA = 2) ∧ (w ≠ 0 → pH + pA = 3) := by
  have hsym : away ≠ home := fun h => hne h.symm
  rcases hw with rfl | rfl | rfl
  · exact ⟨1, 1, by simp [pointsFromWinnerPerspective],
      by simp [pointsFromWinnerPerspective], by norm_num, by norm_num⟩
  · refine ⟨3, 0, ?_, ?_, by norm_num, by norm_num⟩
    · simp [pointsFromWinnerPerspective]
    · simp [pointsFromWinnerPerspective, hne]
  · refine ⟨0, 3, ?_, ?_, by norm_num, by norm_num⟩
    · simp [pointsFromWinnerPerspective]
    · simp [pointsFromWinnerPerspective, hne]

/-- Witness for C7 at a concrete home win between teams 10 and 20. -/
theorem points_from_winner_perspective_symmetry_witness :
    ∃ pH pA : ℚ,
      pointsFromWinnerPerspective (some 1) 10 20 10 = some pH ∧
      pointsFromWinnerPerspective (some 1) 10 20 20 = some pA ∧
      ((1 : Int) = 0 → pH + pA = 2) ∧ ((1 : Int) ≠ 0 → pH + pA = 3) :=
  points_from_winner_perspective_symmetry 1 10 20 (by norm_num) (by norm_num)

/-- C8 counterexample: a strictly positive ppg delta together with a goal
difference delta of exactly zero is labelled Performance-backed by the
code, not Mixed as the claim asserts for a zero delta. -/
theorem confirmation_zero_delta_counterexample :
    confirmationOf 1 0 = "Performance-backed" ∧
    confirmationOf 1 0 ≠ "Mixed" := by
  have hpb : confirmationOf 1 0 = "Performance-backed" := by
    norm_num [confirmationOf]
  exact ⟨hpb, by rw [hpb]; decide⟩

/-- C8 (amended): the confirmation signal is determined by the signs of
the two deltas as follows: positive points delta with nonnegative goal
difference delta (zero included) gives Performance-backed, positive
points delta with negative goal difference delta gives Results >
performance, both deltas negative gives Consistently struggling, and the
remaining combinations, a zero points delta or a negative points delta
with nonnegative goal difference delta, give Mixed. -/
theorem confirmation_sign_characterisation (dp dg : ℚ) :
    (0 < dp → 0 ≤ dg → confirmationOf dp dg = "Performance-backed") ∧
    (0 < dp → dg < 0 → confirmationOf dp dg = "Results > performance") ∧
    (dp < 0 → dg < 0 → confirmationOf dp dg = "Consistently struggling") ∧
    (dp = 0 → confirmationOf dp dg = "Mixed") ∧
    (dp < 0 → 0 ≤ dg → confirmationOf dp dg = "Mixed") := by
  unfold confirmationOf
  refine ⟨?_, ?_, ?_, ?_, ?_⟩
  · intro h1 h2
    rw [if_neg (fun hc => absurd hc.2 (not_lt.mpr h2)), if_pos ⟨h1, h2⟩]
  · intro h1 h2
    rw [if_pos ⟨h1, h2⟩]
  · intro h1 h2
    rw [if_neg (fun hc => absurd h1 (not_lt.mpr (le_of_lt hc.1))),
      if_neg (fun hc => absurd h1 (not_lt.mpr (le_of_lt hc.1))),
      if_pos ⟨h1, h2⟩]
  · intro h1
    subst h1
    rw [if_neg (fun hc => absurd hc.1 (lt_irrefl 0)),
      if_neg (fun hc => absurd hc.1 (lt_irrefl 0)),
      if_neg (fun hc => absurd hc.1 (lt_irrefl 0))]
  · intro h1 h2
    rw [if_neg (fun hc => absurd h1 (not_lt.mpr (le_of_lt hc.1))),
      if_neg (fun hc => absurd h1 (not_lt.mpr (le_of_lt hc.1))),
      if_neg (fun hc => absurd hc.2 (not_lt.mpr h2))]

/-- Witness for C8: the amended characterisation evaluated at a positive
points delta and a zero goal difference delta. -/
theorem confirmation_sign_characterisation_witness :
    confirmationOf 1 0 = "Performance-backed" :=
  (confirmation_sign_characterisation 1 0).1 (by norm_num) (by norm_num)

theorem ppg_foldl_eq (team : Int) (rows : List MatchRow) (a : ℚ) (c : Nat) :
    rows.foldl
      (fun (acc : ℚ × Nat) m =>
        match pointsFromWinnerPerspective m.winner m.home_team_external_id
            m.away_team_external_id team with
        | none => acc
        | some p => (acc.1 + p, acc.2 + 1)) (a, c)
    = (a + (rows.filterMap (fun m => pointsFromWinnerPerspective m.winner
          m.home_team_external_id m.away_team_external_id team)).sum,
       c + (rows.filterMap (fun m => pointsFromWinnerPerspective m.winner
          m.home_team_external_id m.away_team_external_id team)).length) := by
  induction rows generalizing a c with
  | nil => simp
  | cons m rest ih =>
    cases h : pointsFromWinnerPerspective m.winner m.home_team_external_id
        m.away_team_external_id team with
    | none =>
      simp only [List.foldl_cons, List.filterMap_cons, h]
      exact ih a c
    | some p =>
      simp only [List.foldl_cons, List.filterMap_cons, h]
      rw [ih (a + p) (c + 1)]
      simp only [List.sum_cons, List.length_cons, Prod.mk.injEq]
      constructor
      · ring
      · omega

/-- C5: the fixture-difficulty ppg helper computes points over counted
matches only: a fetched row contributes to the points total and to the
match count exactly when its winner code yields perspective points (a
null winner yields none), and with zero counted matches the returned ppg
is exactly 0 rather than an error or NaN. -/
theorem ppg_excludes_indeterminable (team : Int) (rows : List MatchRow) :
    (getTeamPpgFromLastEndedMatches team rows).matchesUsed
      = (rows.filterMap (fun m => pointsFromWinnerPerspective m.winner
          m.home_team_external_id m.away_team_external_id team)).length ∧
    (getTeamPpgFromLastEndedMatches team rows).ppg
      = round2 (safeDivide
          (rows.filterMap (fun m => pointsFromWinnerPerspective m.winner
            m.home_team_external_id m.away_team_external_id team)).sum
          ((rows.filterMap (fun m => pointsFromWinnerPerspective m.winner
            m.home_team_external_id m.away_team_external_id team)).length
            : ℚ)) ∧
    ((rows.filterMap (fun m => pointsFromWinnerPerspective m.winner
        m.home_team_external_id m.away_team_external_id team)).length = 0 →
      (getTeamPpgFromLastEndedMatches team rows).ppg = 0) := by
  by_cases hrows : rows.length = 0
  · have hnil : rows = [] := List.length_eq_zero.mp hrows
    subst hnil
    refine ⟨by simp [getTeamPpgFromLastEndedMatches], ?_, ?_⟩
    · simp [getTeamPpgFromLastEndedMatches, safeDivide, round2_zero]
    · intro _
      simp [getTeamPpgFromLastEndedMatches]
  · refine ⟨?_, ?_, ?_⟩
    · simp only [getTeamPpgFromLastEndedMatches, if_neg hrows,
        ppg_foldl_eq team rows 0 0]
      simp
    · simp only [getTeamPpgFromLastEndedMatches, if_neg hrows,
        ppg_foldl_eq team rows 0 0]
      simp
    · intro hlen
      simp only [getTeamPpgFromLastEndedMatches, if_neg hrows,
        ppg_foldl_eq team rows 0 0]
      simp [hlen, safeDivide, round2_zero]

/-- Witness for C5 on the concrete opponent history: three of the six
rows have a null winner, so only three matches are counted, and the
recent slice of three null-winner rows yields ppg exactly 0. -/
theorem ppg_excludes_indeterminable_witness :
    (getTeamPpgFromLastEndedMatches 100 oppRowsC3).matchesUsed = 3 ∧
    (getTeamPpgFromLastEndedMatches 100 (oppRowsC3.take 3)).ppg = 0 := by
  have h3 : oppRowsC3.take 3 =
      [ { winner := none, home_team_external_id := 100,
          away_team_external_id := 200, home_score := none,
          away_score := none, start_time := "2025-05-10" }
      , { winner := none, home_team_external_id := 200,
          away_team_external_id := 100, home_score := none,
          away_score := none, start_time := "2025-05-03" }
      , { winner := none, home_team_external_id := 100,
          away_team_external_id := 200, home_score := none,
          away_score := none, start_time := "2025-04-26" } ] := rfl
  constructor
  · have h := (ppg_excludes_indeterminable 100 oppRowsC3).1
    rw [h]
    norm_num [oppRowsC3, pointsFromWinnerPerspective, List.filterMap_cons]
  · apply (ppg_excludes_indeterminable 100 (oppRowsC3.take 3)).2.2
    rw [h3]
    norm_num [pointsFromWinnerPerspective, List.filterMap_cons]

/-- C6 counterexample: on the concrete three-match history with
perspective results W, W, L newest first, the form snapshot reports 6
points (3 + 3 + 0 under the Win=3, Draw=1, Loss=0 mapping) and a ppg of
2.00, not the 7 points and 2.33 the claim asserts; 7 points over three
matches would require W, W, D. -/
theorem scenario_a_points_counterexample :
    (getTeamFormCore 10 rowsScenarioA).form = [WDL.W, WDL.W, WDL.L] ∧
    (getTeamFormCore 10 rowsScenarioA).points ≠ 7 ∧
    (getTeamFormCore 10 rowsScenarioA).ppg ≠ 233/100 := by
  refine ⟨?_, ?_, ?_⟩ <;>
    norm_num [getTeamFormCore, rowsScenarioA, toPerMatch,
      getTeamResultForMatch, round2, Rat.floor_def', List.filterMap_cons]

/-- C6 (amended): Scenario A with the outputs the points mapping forces.
For the concrete three-match history with perspective results W, W, L
newest first, the form snapshot reports totalPoints 6, ppg 2.00 (the
2-decimal rounding of 6/3) and the sequence W, W, L. -/
theorem scenario_a_form :
    (getTeamFormCore 10 rowsScenarioA).points = 6 ∧
    (getTeamFormCore 10 rowsScenarioA).ppg = 2 ∧
    (getTeamFormCore 10 rowsScenarioA).form = [WDL.W, WDL.W, WDL.L] := by
  refine ⟨?_, ?_, ?_⟩ <;>
    norm_num [getTeamFormCore, rowsScenarioA, toPerMatch,
      getTeamResultForMatch, round2, Rat.floor_def', List.filterMap_cons]

/-- C4: the trend series lengths. With at least `window` fetched rows
every series and the label list have length `rows.length - window + 1`;
with fewer rows than the window every returned array is empty and the
computation is total (no error path exists). -/
theorem trend_series_lengths (team : Int) (rows : List MatchRow) (w : Nat)
    (hw : 1 ≤ w) :
    (w ≤ rows.length →
      (getTeamTrendsCore team rows w).ppgSeries.length = rows.length - w + 1 ∧
      (getTeamTrendsCore team rows w).gdPerMatchSeries.length
        = rows.length - w + 1 ∧
      (getTeamTrendsCore team rows w).gfPerMatchSeries.length
        = rows.length - w + 1 ∧
      (getTeamTrendsCore team rows w).gaPerMatchSeries.length
        = rows.length - w + 1 ∧
      (getTeamTrendsCore team rows w).labels.length = rows.length - w + 1) ∧
    (rows.length < w →
      (getTeamTrendsCore team rows w).ppgSeries = [] ∧
      (getTeamTrendsCore team rows w).gdPerMatchSeries = [] ∧
      (getTeamTrendsCore team rows w).gfPerMatchSeries = [] ∧
      (getTeamTrendsCore team rows w).gaPerMatchSeries = [] ∧
      (getTeamTrendsCore team rows w).labels = []) := by
  constructor
  · intro hle
    have hnl : ¬ rows.length < w := not_lt.mpr hle
    simp only [getTeamTrendsCore, if_neg hnl, roll]
    simp only [List.length_map, List.length_range, List.length_drop,
      List.length_reverse]
    omega
  · intro hlt
    simp [getTeamTrendsCore, if_pos hlt]

/-- Witness for C4 on the concrete six-match history with window 5: every
series has length 6 - 5 + 1 = 2. -/
theorem trend_series_lengths_witness :
    (getTeamTrendsCore 10 rowsTrend 5).ppgSeries.length = 2 ∧
    (getTeamTrendsCore 10 rowsTrend 5).labels.length = 2 := by
  have h := (trend_series_lengths 10 rowsTrend 5 (by norm_num)).1
    (by simp [rowsTrend])
  refine ⟨?_, ?_⟩
  · have := h.1
    simpa [rowsTrend] using this
  · have := h.2.2.2.2
    simpa [rowsTrend] using this

theorem toPerMatch_eq_none_iff (team : Int) (m : MatchRow) :
    toPerMatch team m = none ↔ getTeamResultForMatch m team = none := by
  cases h : getTeamResultForMatch m team <;> simp [toPerMatch, h]

theorem filterMap_toPerMatch_filter (team : Int) (rows : List MatchRow) :
    (rows.filter
        (fun m => (getTeamResultForMatch m team).isSome)).filterMap
        (toPerMatch team)
      = rows.filterMap (toPerMatch team) := by
  induction rows with
  | nil => simp
  | cons m rest ih =>
    cases hres : getTeamResultForMatch m team with
    | none =>
      have hnone : toPerMatch team m = none :=
        (toPerMatch_eq_none_iff team m).mpr hres
      simp [List.filter_cons, hres, hnone, ih, List.filterMap_cons]
    | some r =>
      cases hp : toPerMatch team m with
      | none =>
        have := (toPerMatch_eq_none_iff team m).mp hp
        rw [this] at hres
        exact absurd hres (by simp)
      | some v =>
        simp [List.filter_cons, hres, hp, ih, List.filterMap_cons]

theorem length_filterMap_of_isSome {α β : Type} (f : α → Option β)
    (l : List α) (h : ∀ a ∈ l, (f a).isSome) :
    (l.filterMap f).length = l.length := by
  induction l with
  | nil => simp
  | cons a rest ih =>
    cases hf : f a with
    | none =>
      have := h a (List.mem_cons_self a rest)
      rw [hf] at this
      exact absurd this (by simp)
    | some b =>
      simp [List.filterMap_cons, hf,
        ih (fun x hx => h x (List.mem_cons_of_mem a hx))]

/-- C9: the form calculator silently drops a fetched ended match whose
result is indeterminable. When at least one fetched row has a
determinable result, the whole snapshot equals the snapshot computed on
the determinable rows alone, and the reported match count is the number
of determinable rows; when every fetched row is indeterminable and at
least one row was fetched, every aggregate is zero, the sequence is
empty, the form rating is null, but the reported match count is the
number of fetched rows rather than 0. -/
theorem form_drops_indeterminable (team : Int) (rows : List MatchRow)
    (hne : rows ≠ []) :
    ((rows.filter (fun m => (getTeamResultForMatch m team).isSome)) ≠ [] →
      getTeamFormCore team rows
        = getTeamFormCore team
            (rows.filter (fun m => (getTeamResultForMatch m team).isSome)) ∧
      (getTeamFormCore team rows).matchesUsed
        = (rows.filter
            (fun m => (getTeamResultForMatch m team).isSome)).length) ∧
    ((rows.filter (fun m => (getTeamResultForMatch m team).isSome)) = [] →
      (getTeamFormCore team rows).matchesUsed = rows.length ∧
      (getTeamFormCore team rows).points = 0 ∧
      (getTeamFormCore team rows).ppg = 0 ∧
      (getTeamFormCore team rows).form = [] ∧
      (getTeamFormCore team rows).formRating = none) := by
  have hl : ¬ rows.length = 0 := fun h => hne (List.length_eq_zero.mp h)
  constructor
  · intro hF
    have hFl : ¬ (rows.filter
        (fun m => (getTeamResultForMatch m team).isSome)).length = 0 :=
      fun h => hF (List.length_eq_zero.mp h)
    have hPMeq := filterMap_toPerMatch_filter team rows
    have hlen : ((rows.filter
        (fun m => (getTeamResultForMatch m team).isSome)).filterMap
        (toPerMatch team)).length
        = (rows.filter
            (fun m => (getTeamResultForMatch m team).isSome)).length := by
      apply length_filterMap_of_isSome
      intro a ha
      have hpred := (List.mem_filter.mp ha).2
      cases hp : toPerMatch team a with
      | none =>
        rw [(toPerMatch_eq_none_iff team a).mp hp] at hpred
        exact absurd hpred (by simp)
      | some v => simp
    have hn : ¬ (rows.filterMap (toPerMatch team)).length = 0 := by
      rw [← hPMeq, hlen]
      exact hFl
    constructor
    · simp only [getTeamFormCore, if_neg hl, if_neg hFl, if_neg hn, hPMeq]
    · simp only [getTeamFormCore, if_neg hl, if_neg hn]
      rw [← hPMeq, hlen]
  · intro hF
    have hPM : rows.filterMap (toPerMatch team) = [] := by
      rw [← filterMap_toPerMatch_filter team rows, hF]
      simp
    refine ⟨?_, ?_, ?_, ?_, ?_⟩ <;>
      simp [getTeamFormCore, if_neg hl, hPM, emptyFormSnapshot, hne]

/-- Witness for C9 on the concrete history whose two fetched rows both
have a null winner: all aggregates are zero and the rating is null, yet
the reported match count is 2. -/
theorem form_drops_indeterminable_witness :
    (getTeamFormCore 10 rowsAllNull).matchesUsed = 2 ∧
    (getTeamFormCore 10 rowsAllNull).points = 0 ∧
    (getTeamFormCore 10 rowsAllNull).formRating = none := by
  have h := (form_drops_indeterminable 10 rowsAllNull
      (by simp [rowsAllNull])).2
    (by simp [rowsAllNull, getTeamResultForMatch, List.filter_cons])
  refine ⟨?_, h.2.1, h.2.2.2.2⟩
  have := h.1
  simpa [rowsAllNull] using this

theorem toMatchStat_points_eq (team : Int) (m : MatchRow) :
    (toMatchStat team m).points
      = (pointsFromWinnerPerspective m.winner m.home_team_external_id
          m.away_team_external_id team).getD 0 := by
  cases hw : m.winner with
  | none =>
    simp [toMatchStat, getTeamResultForMatch, pointsFromWinnerPerspective, hw]
  | some w =>
    by_cases h0 : w = 0
    · simp [toMatchStat, getTeamResultForMatch, pointsFromWinnerPerspective,
        hw, h0]
    · by_cases h1 : w = 1
      · by_cases hh : m.home_team_external_id = team <;>
          simp [toMatchStat, getTeamResultForMatch,
            pointsFromWinnerPerspective, hw, h0, h1, hh]
      · by_cases h2 : w = 2
        · by_cases hh : m.home_team_external_id = team <;>
            simp [toMatchStat, getTeamResultForMatch,
              pointsFromWinnerPerspective, hw, h0, h1, h2, hh]
        · simp [toMatchStat, getTeamResultForMatch,
            pointsFromWinnerPerspective, hw, h0, h1, h2]

/-- C10: the trend calculator keeps indeterminable matches inside the
rolling windows. The emptiness check compares the window against the
unfiltered fetched row count, the reported match count is the unfiltered
row count, each rolling ppg entry sums the perspective points of every
row in the window with an indeterminable row contributing 0 while the
denominator stays the fixed window size, and a null-winner row
contributes 0 points and null-coerced-to-0 scores to the series. -/
theorem trends_keep_indeterminable (team : Int) (rows : List MatchRow)
    (w : Nat) :
    (rows.length < w →
      (getTeamTrendsCore team rows w).ppgSeries = [] ∧
      (getTeamTrendsCore team rows w).labels = [] ∧
      (getTeamTrendsCore team rows w).matchesUsed = rows.length) ∧
    (w ≤ rows.length →
      (getTeamTrendsCore team rows w).matchesUsed = rows.length ∧
      (getTeamTrendsCore team rows w).ppgSeries
        = (List.range (rows.length + 1 - w)).map (fun i =>
            round2 (((((rows.reverse.drop i).take w).map
              (fun m => (pointsFromWinnerPerspective m.winner
                m.home_team_external_id m.away_team_external_id
                team).getD 0)).foldl (· + ·) 0) / (w : ℚ)))) ∧
    (∀ m : MatchRow, m.winner = none →
      (toMatchStat team m).points = 0 ∧
      (m.home_score = none → m.away_score = none →
        (toMatchStat team m).gf = 0 ∧ (toMatchStat team m).ga = 0)) := by
  refine ⟨?_, ?_, ?_⟩
  · intro hlt
    simp [getTeamTrendsCore, if_pos hlt]
  · intro hle
    have hnl : ¬ rows.length < w := not_lt.mpr hle
    constructor
    · simp [getTeamTrendsCore, if_neg hnl]
    · simp only [getTeamTrendsCore, if_neg hnl, roll, List.length_map,
        List.length_reverse, List.map_map]
      apply List.map_congr_left
      intro i _
      simp only [Function.comp_apply]
      have hlist : (((rows.reverse.map (toMatchStat team)).drop i).take
            w).map (fun x => x.points)
          = ((rows.reverse.drop i).take w).map
              (fun m => (pointsFromWinnerPerspective m.winner
                m.home_team_external_id m.away_team_external_id
                team).getD 0) := by
        rw [← List.map_drop, ← List.map_take, List.map_map]
        apply List.map_congr_left
        intro m _
        simpa using toMatchStat_points_eq team m
      rw [hlist]
  · intro m hm
    constructor
    · rw [toMatchStat_points_eq]
      simp [pointsFromWinnerPerspective, hm]
    · intro h1 h2
      constructor <;> simp [toMatchStat, h1, h2]

/-- Witness for C10 on the concrete six-match history containing a
null-winner row: the trend computation still reports all six fetched
matches. -/
theorem trends_keep_indeterminable_witness :
    (getTeamTrendsCore 10 rowsTrend 5).matchesUsed = 6 := by
  have h := ((trends_keep_indeterminable 10 rowsTrend 5).2.1
    (by simp [rowsTrend])).1
  simpa [rowsTrend] using h

theorem getTeamPpg_eq_round2_unrounded (team : Int) (rows : List MatchRow) :
    (getTeamPpgFromLastEndedMatches team rows).ppg
      = round2 (ppgUnrounded team rows) := by
  by_cases h : rows.length = 0
  · have hnil : rows = [] := List.length_eq_zero.mp h
    subst hnil
    simp [getTeamPpgFromLastEndedMatches, ppgUnrounded, safeDivide,
      round2_zero]
  · simp only [getTeamPpgFromLastEndedMatches, ppgUnrounded, if_neg h]

/-- C3 counterexample: on the concrete opponent history the ppg helper
already rounds internally (2.33 instead of 7/3), and with momentum
weight 1/5 and venue adjustment disabled the difficulty score computed
by the code from the rounded ppg values is 1.86, while the score computed
with full-precision internal arithmetic and rounding only at the output
boundary is 1.87; rounding is therefore not confined to the
serialization boundary and the blend does not consume unrounded ppg
values. -/
theorem rounding_before_blend_counterexample :
    (getTeamPpgFromLastEndedMatches 100 (oppRowsC3.take 6)).ppg
        ≠ ppgUnrounded 100 (oppRowsC3.take 6) ∧
    (fixtureDifficultyForOpponent 100 oppRowsC3 6 3 (1/5) true 1
        1).fixtureDifficulty = 93/50 ∧
    fixtureDifficultyFullPrecisionSpec 100 oppRowsC3 6 3 (1/5) true 1 1
        = 187/100 ∧
    (fixtureDifficultyForOpponent 100 oppRowsC3 6 3 (1/5) true 1
        1).fixtureDifficulty
      ≠ fixtureDifficultyFullPrecisionSpec 100 oppRowsC3 6 3 (1/5) true
          1 1 := by
  have h6 : oppRowsC3.take 6 = oppRowsC3 := rfl
  refine ⟨?_, ?_, ?_, ?_⟩ <;>
    norm_num [fixtureDifficultyForOpponent, fixtureDifficultyFullPrecisionSpec,
      h6, getTeamPpgFromLastEndedMatches, ppgUnrounded, oppRowsC3,
      pointsFromWinnerPerspective, safeDivide, round2, Rat.floor_def',
      List.take, List.filterMap_cons]

/-- C3 (amended): the ppg helper rounds its quotient to 2 decimals before
returning, so the opponent-strength blend is computed from ppg values
already rounded to 2 decimals rather than from unrounded ones, and the
final difficulty score is the 2-decimal rounding of that rounded-input
blend times the venue factor. -/
theorem fixture_blend_uses_rounded_ppg (oppExt : Int)
    (oppRows : List MatchRow) (oppMatches recentOppMatches : Nat)
    (alpha : ℚ) (tih : Bool) (hf af : ℚ) :
    (getTeamPpgFromLastEndedMatches oppExt (oppRows.take oppMatches)).ppg
        = round2 (ppgUnrounded oppExt (oppRows.take oppMatches)) ∧
    (fixtureDifficultyForOpponent oppExt oppRows oppMatches
        recentOppMatches alpha tih hf af).oppStrengthRaw
      = round2 (ppgUnrounded oppExt (oppRows.take oppMatches))
        + alpha * (round2 (ppgUnrounded oppExt
              (oppRows.take recentOppMatches))
            - round2 (ppgUnrounded oppExt (oppRows.take oppMatches))) ∧
    (fixtureDifficultyForOpponent oppExt oppRows oppMatches
        recentOppMatches alpha tih hf af).fixtureDifficulty
      = round2 ((fixtureDifficultyForOpponent oppExt oppRows oppMatches
            recentOppMatches alpha tih hf af).oppStrengthRaw
          * (if tih then hf else af)) := by
  refine ⟨getTeamPpg_eq_round2_unrounded oppExt (oppRows.take oppMatches),
    ?_, ?_⟩
  · simp only [fixtureDifficultyForOpponent,
      getTeamPpg_eq_round2_unrounded]
  · simp only [fixtureDifficultyForOpponent]

end EPLTracker
